import Mathlib

/-!
Verification of the grandma/goko Python-binding layer (`src/pygoko/src/tree.rs`,
`src/pygrandma/src/tree.rs`) against the natural-language specification.

The binding layer is embedded shallowly: a `#[pyclass]` struct becomes a Lean
structure, a `&mut self` method becomes a state-passing function, and every
Rust `panic!`/`.unwrap()` failure becomes the explicit `PyOutcome.panicked`
outcome (distinct from `PyOutcome.err`, a host-visible `PyErr`).  The goko
core crate (builder, writer, reader, knn, dry insertion) is not part of the
sources inspected; the parts of it the theorems depend on are modelled from
the specification, each marked `Modelled from the spec:` in its doc comment.
Scalars are embedded as `ℚ`; the L2 metric is represented by the squared
distance, which induces the same ordering on candidates.
-/

/-- A point: a dense vector, embedded as a list of rationals. -/
abbrev Point := List ℚ

/-- A node address: `(scale_index, slot_index)` as in the spec's data model. -/
abbrev NodeAddress := Int × Nat

/-- Squared L2 distance of two equal-length dense vectors. -/
def dist2 (a b : Point) : ℚ :=
  (List.zipWith (fun x y => (x - y) * (x - y)) a b).sum

/-- Modelled from the spec: a `PointCloud` owns the point storage, one label
per point (default label when absent), and the uniform dimension (§3). -/
structure PointCloud where
  points : List Point
  labels : List Nat
  dim : Nat
deriving DecidableEq, Repr

/-- Modelled from the spec: random-access lookup by index into the owning
`PointCloud`; fails for an out-of-range index (§6 point-cloud collaborator). -/
def PointCloud.point (pc : PointCloud) (i : Nat) : Except String Point :=
  match pc.points[i]? with
  | some p => .ok p
  | none => .error "point index out of range"

/-- Modelled from the spec: `dense_iter(dim)` yields exactly `dim` entries of
the dense representation of a (possibly sparse) point. -/
def denseIter (p : Point) (dim : Nat) : List ℚ :=
  p.take dim ++ List.replicate (dim - p.length) 0

/-- The two plugin kinds attached by `fit` (diagonal Gaussian, Dirichlet). -/
inductive PluginKind where
  | diagGaussian : PluginKind
  | dirichlet : PluginKind
deriving DecidableEq, Repr

/-- Build-time error taxonomy (§7): invalid builder parameters vs. bad data. -/
inductive BuildError where
  | configError : BuildError
  | dataError : BuildError
deriving DecidableEq, Repr

/-- The cover-tree builder configuration (scale base, leaf cutoff, minimum
resolution index, singleton materialization), as held by both bindings. -/
structure CoverTreeBuilder where
  scale_base : ℚ
  leaf_cutoff : Nat
  min_res_index : Int
  use_singletons : Bool
deriving DecidableEq, Repr

/-- Modelled from the spec: builder defaults are in the goko core, not under
the inspected sources; chosen to satisfy §4.1's parameter requirements. -/
def CoverTreeBuilder.new : CoverTreeBuilder :=
  { scale_base := 2, leaf_cutoff := 1, min_res_index := -10, use_singletons := true }

def CoverTreeBuilder.set_scale_base (b : CoverTreeBuilder) (x : ℚ) : CoverTreeBuilder :=
  { b with scale_base := x }

def CoverTreeBuilder.set_leaf_cutoff (b : CoverTreeBuilder) (x : Nat) : CoverTreeBuilder :=
  { b with leaf_cutoff := x }

def CoverTreeBuilder.set_min_res_index (b : CoverTreeBuilder) (x : Int) : CoverTreeBuilder :=
  { b with min_res_index := x }

def CoverTreeBuilder.set_use_singletons (b : CoverTreeBuilder) (x : Bool) : CoverTreeBuilder :=
  { b with use_singletons := x }

/-- One tree node: representative point index, child addresses, and the
member point indices stored against it (§3 Node). -/
structure NodeData where
  representative : Nat
  children : List NodeAddress
  singletons : List Nat
deriving DecidableEq, Repr

/-- The tree structure: an arena of nodes indexed by address, the root
address, and the half-open range of scale indices carrying a layer (§3). -/
structure CoverTreeData where
  nodes : List (NodeAddress × NodeData)
  root_address : NodeAddress
  scale_range : Int × Int
deriving DecidableEq, Repr

/-- Arena lookup of a node by address. -/
def CoverTreeData.getNode (t : CoverTreeData) (a : NodeAddress) : Option NodeData :=
  (t.nodes.find? (fun x => decide (x.1 = a))).map (·.2)

/-- Modelled from the spec: the constructed tree.  The construction algorithm
(§4.1) lives in the goko core, outside the inspected sources; the claims below
depend only on build's error contract and on the fitted tree having a root
layer, so the result is modelled as its coarsest layer: one root node covering
every point, with a nonempty `scale_range`. -/
def rootTree (pc : PointCloud) : CoverTreeData :=
  { nodes := [((0, 0), { representative := 0, children := [],
                         singletons := List.range pc.points.length })]
    root_address := (0, 0)
    scale_range := (0, 1) }

/-- The single mutation authority over the tree: structure plus base
summaries and attached plugin kinds (§4.2). -/
structure CoverTreeWriter where
  point_cloud : PointCloud
  tree : CoverTreeData
  summaries : Option (List (NodeAddress × Nat))
  plugins : List PluginKind
deriving DecidableEq, Repr

/-- Modelled from the spec: `build` fails with a configuration error if the
scale base is not > 1 or the cutoff is not ≥ 1, and with a data error if the
point cloud is empty or the labels do not match the points (§4.1, §7);
otherwise it produces a Writer with no summaries or plugins attached yet. -/
def CoverTreeBuilder.build (b : CoverTreeBuilder) (pc : PointCloud) :
    Except BuildError CoverTreeWriter :=
  if b.scale_base ≤ 1 then .error .configError
  else if b.leaf_cutoff < 1 then .error .configError
  else if pc.points.isEmpty then .error .dataError
  else if pc.labels.length ≠ pc.points.length then .error .dataError
  else .ok { point_cloud := pc, tree := rootTree pc, summaries := none, plugins := [] }

/-- Modelled from the spec: computes and stores the base statistics (per-node
member counts) for every node; idempotent (§4.2). -/
def CoverTreeWriter.generate_summaries (w : CoverTreeWriter) : CoverTreeWriter :=
  { w with summaries := some (w.tree.nodes.map (fun x => (x.1, x.2.singletons.length))) }

/-- Modelled from the spec: attaches one statistic per node for the given
plugin kind; fails (attaches nothing) if the base summaries are missing
(§4.2). -/
def CoverTreeWriter.add_plugin (w : CoverTreeWriter) (k : PluginKind) : CoverTreeWriter :=
  match w.summaries with
  | some _ => { w with plugins := w.plugins ++ [k] }
  | none => w

/-- An immutable snapshot handle to the tree (§4.2 Writer/Reader split). -/
structure CoverTreeReader where
  point_cloud : PointCloud
  tree : CoverTreeData
  summaries : Option (List (NodeAddress × Nat))
  plugins : List PluginKind
deriving DecidableEq, Repr

/-- `Writer.reader()`: a snapshot of the Writer's state at call time. -/
def CoverTreeWriter.reader (w : CoverTreeWriter) : CoverTreeReader :=
  { point_cloud := w.point_cloud, tree := w.tree,
    summaries := w.summaries, plugins := w.plugins }

/-- The reader's range of scale indices (`scale_range().start .. end`). -/
def CoverTreeReader.scale_range (r : CoverTreeReader) : Int × Int :=
  r.tree.scale_range

def CoverTreeReader.root_address (r : CoverTreeReader) : NodeAddress :=
  r.tree.root_address

/-- Modelled from the spec: the single-point accessor `get_node_and(address,
f)` returns `f`'s result on the node, or a node-not-found failure (§4.3). -/
def CoverTreeReader.get_node_and {α : Type} (r : CoverTreeReader) (a : NodeAddress)
    (f : NodeData → α) : Option α :=
  (r.tree.getNode a).map f

/-- Candidate order for knn results: ascending distance, ties broken by
ascending point index (§4.4 determinism rule). -/
def knnLe (a b : ℚ × Nat) : Prop :=
  a.1 < b.1 ∨ (a.1 = b.1 ∧ a.2 ≤ b.2)

instance : DecidableRel knnLe :=
  fun a b => decidable_of_iff (a.1 < b.1 ∨ (a.1 = b.1 ∧ a.2 ≤ b.2)) Iff.rfl

instance : IsTotal (ℚ × Nat) knnLe where
  total a b := by
    rcases lt_trichotomy a.1 b.1 with h | h | h
    · exact Or.inl (Or.inl h)
    · rcases Nat.le_total a.2 b.2 with h2 | h2
      · exact Or.inl (Or.inr ⟨h, h2⟩)
      · exact Or.inr (Or.inr ⟨h.symm, h2⟩)
    · exact Or.inr (Or.inl h)

instance : IsTrans (ℚ × Nat) knnLe where
  trans a b c hab hbc := by
    rcases hab with h1 | ⟨e1, n1⟩
    · rcases hbc with h2 | ⟨e2, _⟩
      · exact Or.inl (h1.trans h2)
      · exact Or.inl (e2 ▸ h1)
    · rcases hbc with h2 | ⟨e2, n2⟩
      · exact Or.inl (e1 ▸ h2)
      · exact Or.inr ⟨e1.trans e2, n1.trans n2⟩

/-- Modelled from the spec: the knn result over a point cloud.  §4.4 gives the
contract (ascending distance, deterministic tie-break by point index, length
`min(k, N)`) and §8 states the result equals the brute-force linear scan's
top-k, which is what is modelled: all `(distance, index)` candidates sorted in
the candidate order, truncated to `k`. -/
def bruteKnn (pc : PointCloud) (q : Point) (k : Nat) : List (ℚ × Nat) :=
  (List.insertionSort knnLe (pc.points.enum.map (fun x => (dist2 q x.2, x.1)))).take k

/-- Modelled from the spec: `Reader.knn` (§4.4); the branch-and-bound descent
prunes without changing the result, so the result is the brute-force top-k. -/
def CoverTreeReader.knn (r : CoverTreeReader) (q : Point) (k : Nat) :
    Except Unit (List (ℚ × Nat)) :=
  .ok (bruteKnn r.point_cloud q k)

/-- The child of minimal distance to the query among a node's children,
ties broken by list position (deterministic). -/
def nearestChild (t : CoverTreeData) (pc : PointCloud) (p : Point)
    (cs : List NodeAddress) : Option NodeAddress :=
  cs.argmin (fun c =>
    ((t.getNode c).map (fun nd => dist2 p (pc.points.getD nd.representative []))).getD 0)

/-- Modelled from the spec: the insertion descent (§4.1/§4.5): starting from
an address, record the distance to the current node's representative, then
recurse into the nearest child until a leaf is reached.  Fuel bounds the
recursion by the arena size. -/
def descend (t : CoverTreeData) (pc : PointCloud) (p : Point) :
    Nat → NodeAddress → List (ℚ × NodeAddress)
  | 0, _ => []
  | Nat.succ fuel, a =>
    match t.getNode a with
    | none => []
    | some nd =>
      (dist2 p (pc.points.getD nd.representative []), a) ::
        (match nearestChild t pc p nd.children with
         | none => []
         | some c => descend t pc p fuel c)

/-- The path a point would take if inserted, from the root down (§4.5). -/
def dryInsertPath (r : CoverTreeReader) (p : Point) : List (ℚ × NodeAddress) :=
  descend r.tree r.point_cloud p (r.tree.nodes.length + 1) r.tree.root_address

/-- Modelled from the spec: `Reader.dry_insert` (§4.5) computes the insertion
path without mutating anything: it is a pure function of the reader snapshot. -/
def CoverTreeReader.dry_insert (r : CoverTreeReader) (p : Point) :
    Except Unit (List (ℚ × NodeAddress)) :=
  .ok (dryInsertPath r p)

/-- Outcome of a binding call as seen by the host: a returned value, a
host-visible failure (`PyErr`, i.e. a Python exception returned from the
call), or a Rust panic escaping the binding (`panic!` / `.unwrap()` on a
failed value), which is not a per-call error value. -/
inductive PyOutcome (α : Type) where
  | ok : α → PyOutcome α
  | err : String → PyOutcome α
  | panicked : String → PyOutcome α
deriving DecidableEq, Repr

/-- The layer handle returned by the bindings: the reader snapshot plus the
requested scale index (fields `tree`, `scale_index` of `PyLayer`). -/
structure PyLayer where
  tree : CoverTreeReader
  scale_index : Int
deriving DecidableEq, Repr

/-- The node handle returned by the bindings (fields `tree`, `address`). -/
structure PyNode where
  tree : CoverTreeReader
  address : NodeAddress
deriving DecidableEq, Repr

/-- The `#[pyclass] struct CoverTree` of `src/pygoko/src/tree.rs`: the
builder, the point cloud loaded from a config file if any, the writer and the
reader snapshot, all optional runtime state flags. -/
structure CoverTree where
  builder : Option CoverTreeBuilder
  temp_point_cloud : Option PointCloud
  writer : Option CoverTreeWriter
  reader : Option CoverTreeReader
  metric : String
deriving DecidableEq, Repr

/-- `CoverTree::new` (pygoko tree.rs lines 47-56). -/
def CoverTree.new : CoverTree :=
  { builder := some CoverTreeBuilder.new, temp_point_cloud := none,
    writer := none, reader := none, metric := "DefaultLabeledCloud<L2>" }

/-- `CoverTree::set_scale_base` (pygoko tree.rs lines 57-62): delegates to the
builder, or panics with "Set too late" once the builder has been consumed. -/
def CoverTree.set_scale_base (s : CoverTree) (x : ℚ) : PyOutcome Unit × CoverTree :=
  match s.builder with
  | some b => (.ok (), { s with builder := some (b.set_scale_base x) })
  | none => (.panicked "Set too late", s)

/-- `CoverTree::set_leaf_cutoff` (pygoko tree.rs lines 63-68). -/
def CoverTree.set_leaf_cutoff (s : CoverTree) (x : Nat) : PyOutcome Unit × CoverTree :=
  match s.builder with
  | some b => (.ok (), { s with builder := some (b.set_leaf_cutoff x) })
  | none => (.panicked "Set too late", s)

/-- `CoverTree::set_min_res_index` (pygoko tree.rs lines 69-74). -/
def CoverTree.set_min_res_index (s : CoverTree) (x : Int) : PyOutcome Unit × CoverTree :=
  match s.builder with
  | some b => (.ok (), { s with builder := some (b.set_min_res_index x) })
  | none => (.panicked "Set too late", s)

/-- `CoverTree::set_use_singletons` (pygoko tree.rs lines 75-80). -/
def CoverTree.set_use_singletons (s : CoverTree) (x : Bool) : PyOutcome Unit × CoverTree :=
  match s.builder with
  | some b => (.ok (), { s with builder := some (b.set_use_singletons x) })
  | none => (.panicked "Set too late", s)

/-- The label vector computed inside `fit` (pygoko tree.rs lines 98-105,
pygrandma tree.rs lines 87-90): the supplied array as given, or `len` copies
of the default label 0. -/
def fitLabels (len : Nat) (labels : Option (List Nat)) : List Nat :=
  match labels with
  | some l => l
  | none => List.replicate len 0

/-- Modelled from the spec: `DefaultLabeledCloud::new_simple` packs row-major
data, dimension and labels into a `PointCloud` (§3); it is the constructor the
bindings hand their arrays to. -/
def new_simple (rows : List Point) (dim : Nat) (labels : List Nat) : PointCloud :=
  { points := rows, labels := labels, dim := dim }

/-- The point cloud `fit` hands to `build` when host data is supplied
(pygoko tree.rs lines 95-110, pygrandma tree.rs lines 85-95). -/
def fitPointCloud (rows : List Point) (dim : Nat) (labels : Option (List Nat)) : PointCloud :=
  new_simple rows dim (fitLabels rows.length labels)

/-- The tail of `CoverTree::fit` after the point cloud is resolved (pygoko
tree.rs lines 120-129): `self.builder.take()`, `.unwrap()`, `build(..).unwrap()`,
then `generate_summaries`, the two `add_plugin` calls, and finally the reader
snapshot is stored.  Unwrap failures are panics, and in every failing case the
writer and reader fields are left untouched. -/
def fitAfterCloud (s : CoverTree) (pc : PointCloud) : PyOutcome Unit × CoverTree :=
  match s.builder with
  | none => (.panicked "called Option.unwrap on a None value", { s with builder := none })
  | some b =>
    match b.build pc with
    | .error _ => (.panicked "called Result.unwrap on an Err value", { s with builder := none })
    | .ok w =>
      let w := ((w.generate_summaries).add_plugin .diagGaussian).add_plugin .dirichlet
      (.ok (), { s with builder := none, writer := some w, reader := some w.reader })

/-- `CoverTree::fit` (pygoko tree.rs lines 94-130): builds the point cloud
from the host arrays (or takes the one loaded from a config file; panics with
"No known point_cloud" if neither exists), then runs the build tail. -/
def CoverTree.fit (s : CoverTree) (data : Option (List Point × Nat))
    (labels : Option (List Nat)) : PyOutcome Unit × CoverTree :=
  match data with
  | some (rows, dim) => fitAfterCloud s (fitPointCloud rows dim labels)
  | none =>
    match s.temp_point_cloud with
    | some pc => fitAfterCloud { s with temp_point_cloud := none } pc
    | none => (.panicked "No known point_cloud", s)

/-- `CoverTree::data_point` (pygoko tree.rs lines 132-145): a failed core
lookup is mapped to `Ok(None)`; a successful one to the dense array. -/
def CoverTree.data_point (s : CoverTree) (point_index : Nat) :
    PyOutcome (Option (List ℚ)) :=
  match s.reader with
  | none => .panicked "called Option.unwrap on a None value"
  | some r =>
    match r.point_cloud.point point_index with
    | .error _ => .ok none
    | .ok p => .ok (some (denseIter p r.point_cloud.dim))

/-- `CoverTree::top_scale` (pygoko tree.rs lines 148-150). -/
def CoverTree.top_scale (s : CoverTree) : Option Int :=
  s.reader.map (fun r => r.scale_range.2 - 1)

/-- `CoverTree::bottom_scale` (pygoko tree.rs lines 152-154). -/
def CoverTree.bottom_scale (s : CoverTree) : Option Int :=
  s.reader.map (fun r => r.scale_range.1)

/-- `CoverTree::layer` (pygoko tree.rs lines 167-174): builds the layer handle
from the requested scale index without any existence check. -/
def CoverTree.layer (s : CoverTree) (scale_index : Int) : PyOutcome PyLayer :=
  match s.reader with
  | none => .panicked "called Option.unwrap on a None value"
  | some r => .ok { tree := r, scale_index := scale_index }

/-- `CoverTree::node` (pygoko tree.rs lines 176-185): checks the node exists
via `get_node_and(address, |_| true).unwrap()` — a missing node panics. -/
def CoverTree.node (s : CoverTree) (address : NodeAddress) : PyOutcome PyNode :=
  match s.reader with
  | none => .panicked "called Option.unwrap on a None value"
  | some r =>
    match r.get_node_and address (fun _ => true) with
    | none => .panicked "called Option.unwrap on a None value"
    | some _ => .ok { tree := r, address := address }

/-- `CoverTree::root` (pygoko tree.rs lines 187-190). -/
def CoverTree.root (s : CoverTree) : PyOutcome PyNode :=
  match s.reader with
  | none => .panicked "called Option.unwrap on a None value"
  | some r => s.node r.root_address

/-- `CoverTree::knn` (pygoko tree.rs lines 192-200): unwraps the reader and
the core result. -/
def CoverTree.knn (s : CoverTree) (point : Point) (k : Nat) :
    PyOutcome (List (ℚ × Nat)) :=
  match s.reader with
  | none => .panicked "called Option.unwrap on a None value"
  | some r =>
    match r.knn point k with
    | .error _ => .panicked "called Result.unwrap on an Err value"
    | .ok v => .ok v

/-- `CoverTree::dry_insert` (pygoko tree.rs lines 202-210): a `&self` method,
embedded state-passing so that the absence of mutation is a provable fact. -/
def CoverTree.dry_insert (s : CoverTree) (point : Point) :
    PyOutcome (List (ℚ × NodeAddress)) × CoverTree :=
  match s.reader with
  | none => (.panicked "called Option.unwrap on a None value", s)
  | some r =>
    match r.dry_insert point with
    | .error _ => (.panicked "called Result.unwrap on an Err value", s)
    | .ok v => (.ok v, s)

/-- The layer handle of the pygrandma binding (`PyGrandLayer`). -/
structure PyGrandLayer where
  tree : CoverTreeReader
  scale_index : Int
deriving DecidableEq, Repr

/-- The node handle of the pygrandma binding (`PyGrandNode`). -/
structure PyGrandNode where
  tree : CoverTreeReader
  address : NodeAddress
deriving DecidableEq, Repr

/-- The `#[pyclass] struct PyGrandma` of `src/pygrandma/src/tree.rs`. -/
structure PyGrandma where
  builder : Option CoverTreeBuilder
  writer : Option CoverTreeWriter
  reader : Option CoverTreeReader
  metric : String
deriving DecidableEq, Repr

/-- `PyGrandma::new` (pygrandma tree.rs lines 46-54). -/
def PyGrandma.new : PyGrandma :=
  { builder := some CoverTreeBuilder.new, writer := none, reader := none,
    metric := "DefaultLabeledCloud<L2>" }

/-- `PyGrandma::set_scale_base` (pygrandma tree.rs lines 55-60). -/
def PyGrandma.set_scale_base (s : PyGrandma) (x : ℚ) : PyOutcome Unit × PyGrandma :=
  match s.builder with
  | some b => (.ok (), { s with builder := some (b.set_scale_base x) })
  | none => (.panicked "Set too late", s)

/-- `PyGrandma::set_cutoff` (pygrandma tree.rs lines 61-66); the grandma
builder's cutoff is the same parameter pygoko names the leaf cutoff. -/
def PyGrandma.set_cutoff (s : PyGrandma) (x : Nat) : PyOutcome Unit × PyGrandma :=
  match s.builder with
  | some b => (.ok (), { s with builder := some (b.set_leaf_cutoff x) })
  | none => (.panicked "Set too late", s)

/-- `PyGrandma::set_resolution` (pygrandma tree.rs lines 67-72); the grandma
builder's resolution is the parameter pygoko names the minimum resolution
index. -/
def PyGrandma.set_resolution (s : PyGrandma) (x : Int) : PyOutcome Unit × PyGrandma :=
  match s.builder with
  | some b => (.ok (), { s with builder := some (b.set_min_res_index x) })
  | none => (.panicked "Set too late", s)

/-- `PyGrandma::set_use_singletons` (pygrandma tree.rs lines 73-78). -/
def PyGrandma.set_use_singletons (s : PyGrandma) (x : Bool) : PyOutcome Unit × PyGrandma :=
  match s.builder with
  | some b => (.ok (), { s with builder := some (b.set_use_singletons x) })
  | none => (.panicked "Set too late", s)

/-- `PyGrandma::fit` (pygrandma tree.rs lines 84-106): the host data array is
mandatory here; otherwise the same build tail as pygoko's `fit`. -/
def PyGrandma.fit (s : PyGrandma) (rows : List Point) (dim : Nat)
    (labels : Option (List Nat)) : PyOutcome Unit × PyGrandma :=
  let pc := fitPointCloud rows dim labels
  match s.builder with
  | none => (.panicked "called Option.unwrap on a None value", { s with builder := none })
  | some b =>
    match b.build pc with
    | .error _ => (.panicked "called Result.unwrap on an Err value", { s with builder := none })
    | .ok w =>
      let w := ((w.generate_summaries).add_plugin .diagGaussian).add_plugin .dirichlet
      (.ok (), { s with builder := none, writer := some w, reader := some w.reader })

/-- `PyGrandma::data_point` (pygrandma tree.rs lines 120-133). -/
def PyGrandma.data_point (s : PyGrandma) (point_index : Nat) :
    PyOutcome (Option (List ℚ)) :=
  match s.reader with
  | none => .panicked "called Option.unwrap on a None value"
  | some r =>
    match r.point_cloud.point point_index with
    | .error _ => .ok none
    | .ok p => .ok (some (denseIter p r.point_cloud.dim))

/-- `PyGrandma::top_scale` (pygrandma tree.rs lines 136-138). -/
def PyGrandma.top_scale (s : PyGrandma) : Option Int :=
  s.reader.map (fun r => r.scale_range.2 - 1)

/-- `PyGrandma::bottom_scale` (pygrandma tree.rs lines 140-142). -/
def PyGrandma.bottom_scale (s : PyGrandma) : Option Int :=
  s.reader.map (fun r => r.scale_range.1)

/-- `PyGrandma::layer` (pygrandma tree.rs lines 155-162): no existence check. -/
def PyGrandma.layer (s : PyGrandma) (scale_index : Int) : PyOutcome PyGrandLayer :=
  match s.reader with
  | none => .panicked "called Option.unwrap on a None value"
  | some r => .ok { tree := r, scale_index := scale_index }

/-- `PyGrandma::node` (pygrandma tree.rs lines 164-173). -/
def PyGrandma.node (s : PyGrandma) (address : NodeAddress) : PyOutcome PyGrandNode :=
  match s.reader with
  | none => .panicked "called Option.unwrap on a None value"
  | some r =>
    match r.get_node_and address (fun _ => true) with
    | none => .panicked "called Option.unwrap on a None value"
    | some _ => .ok { tree := r, address := address }

/-- `PyGrandma::root` (pygrandma tree.rs lines 175-178). -/
def PyGrandma.root (s : PyGrandma) : PyOutcome PyGrandNode :=
  match s.reader with
  | none => .panicked "called Option.unwrap on a None value"
  | some r => s.node r.root_address

/-- `PyGrandma::knn` (pygrandma tree.rs lines 180-188). -/
def PyGrandma.knn (s : PyGrandma) (point : Point) (k : Nat) :
    PyOutcome (List (ℚ × Nat)) :=
  match s.reader with
  | none => .panicked "called Option.unwrap on a None value"
  | some r =>
    match r.knn point k with
    | .error _ => .panicked "called Result.unwrap on an Err value"
    | .ok v => .ok v

/-- `PyGrandma::dry_insert` (pygrandma tree.rs lines 190-198), state-passing
as for `CoverTree.dry_insert`. -/
def PyGrandma.dry_insert (s : PyGrandma) (point : Point) :
    PyOutcome (List (ℚ × NodeAddress)) × PyGrandma :=
  match s.reader with
  | none => (.panicked "called Option.unwrap on a None value", s)
  | some r =>
    match r.dry_insert point with
    | .error _ => (.panicked "called Result.unwrap on an Err value", s)
    | .ok v => (.ok v, s)

/-- A concrete host data set: two one-dimensional points. -/
def egData : List Point := [[0], [1]]

/-- The result of fitting a fresh pygoko `CoverTree` on `egData`. -/
def egFit : PyOutcome Unit × CoverTree := CoverTree.new.fit (some (egData, 1)) none

/-- The pygoko binding state after the example fit. -/
def egState : CoverTree := egFit.2

/-- The reader snapshot stored by the example fit. -/
def egReader : CoverTreeReader :=
  (egState.reader).getD ⟨⟨[], [], 0⟩, ⟨[], (0, 0), (0, 0)⟩, none, []⟩

/-- The result of fitting a fresh `PyGrandma` on `egData`. -/
def egGFit : PyOutcome Unit × PyGrandma := PyGrandma.new.fit egData 1 none

/-- The pygrandma binding state after the example fit. -/
def egGState : PyGrandma := egGFit.2

/-- The reader snapshot stored by the example pygrandma fit. -/
def egGReader : CoverTreeReader :=
  (egGState.reader).getD ⟨⟨[], [], 0⟩, ⟨[], (0, 0), (0, 0)⟩, none, []⟩

theorem knnLe_fst_le {a b : ℚ × Nat} (h : knnLe a b) : a.1 ≤ b.1 :=
  h.elim le_of_lt (fun h2 => le_of_eq h2.1)

theorem bruteKnn_sorted (pc : PointCloud) (q : Point) (k : Nat) :
    List.Sorted (fun a b : ℚ × Nat => a.1 ≤ b.1) (bruteKnn pc q k) := by
  have hs : List.Sorted knnLe
      (List.insertionSort knnLe (pc.points.enum.map (fun x => (dist2 q x.2, x.1)))) :=
    List.sorted_insertionSort knnLe _
  exact (hs.sublist (List.take_sublist k _)).imp (fun h => knnLe_fst_le h)

theorem bruteKnn_length (pc : PointCloud) (q : Point) (k : Nat) :
    (bruteKnn pc q k).length = min k pc.points.length := by
  unfold bruteKnn
  rw [List.length_take, List.length_insertionSort, List.length_map, List.enum_length]

theorem denseIter_length (p : Point) (dim : Nat) : (denseIter p dim).length = dim := by
  simp only [denseIter, List.length_append, List.length_take, List.length_replicate]
  omega

theorem build_ok_eq {b : CoverTreeBuilder} {pc : PointCloud} {w : CoverTreeWriter}
    (h : b.build pc = .ok w) :
    w = { point_cloud := pc, tree := rootTree pc, summaries := none, plugins := [] } := by
  unfold CoverTreeBuilder.build at h
  split_ifs at h
  injection h with h2
  exact h2.symm

theorem fitAfterCloud_ok {s s' : CoverTree} {pc : PointCloud}
    (h : fitAfterCloud s pc = (.ok (), s')) :
    ∃ r, s'.reader = some r ∧ r.summaries.isSome = true ∧
      r.plugins = [PluginKind.diagGaussian, PluginKind.dirichlet] ∧
      r.scale_range = (0, 1) ∧ s'.builder = none := by
  unfold fitAfterCloud at h
  split at h
  · simp at h
  · split at h
    · simp at h
    · rename_i b hb w hw
      have hwe := build_ok_eq hw
      subst hwe
      simp only [Prod.mk.injEq] at h
      rw [← h.2]
      exact ⟨_, rfl, rfl, rfl, rfl, rfl⟩

theorem pygrandma_fit_ok {s s' : PyGrandma} {rows : List Point} {dim : Nat}
    {labels : Option (List Nat)}
    (h : PyGrandma.fit s rows dim labels = (.ok (), s')) :
    ∃ r, s'.reader = some r ∧ r.summaries.isSome = true ∧
      r.plugins = [PluginKind.diagGaussian, PluginKind.dirichlet] ∧
      r.scale_range = (0, 1) ∧ s'.builder = none := by
  unfold PyGrandma.fit at h
  simp only [] at h
  split at h
  · simp at h
  · split at h
    · simp at h
    · rename_i b hb w hw
      have hwe := build_ok_eq hw
      subst hwe
      simp only [Prod.mk.injEq] at h
      rw [← h.2]
      exact ⟨_, rfl, rfl, rfl, rfl, rfl⟩

theorem covertree_fit_ok {s s' : CoverTree} {data : Option (List Point × Nat)}
    {labels : Option (List Nat)}
    (h : CoverTree.fit s data labels = (.ok (), s')) :
    ∃ r, s'.reader = some r ∧ r.summaries.isSome = true ∧
      r.plugins = [PluginKind.diagGaussian, PluginKind.dirichlet] ∧
      r.scale_range = (0, 1) ∧ s'.builder = none := by
  unfold CoverTree.fit at h
  cases data with
  | some d => exact fitAfterCloud_ok h
  | none =>
    cases ht : s.temp_point_cloud with
    | some pc => rw [ht] at h; exact fitAfterCloud_ok h
    | none => rw [ht] at h; simp at h

/-- Claim C1 (evidence of the code bug): the binding does not surface core
error conditions as host-visible per-call failures (`PyOutcome.err`); it
reaches them through `.unwrap()`, which panics.  Concretely, on the example
fitted tree, `node` at the absent address `(999, 999)` panics, and `fit` on an
empty input panics at the unwrapped `build` error — in both bindings. -/
theorem C1_core_errors_panic_not_err :
    CoverTree.node egState (999, 999) = .panicked "called Option.unwrap on a None value" ∧
    (CoverTree.new.fit (some ([], 1)) none).1 =
      .panicked "called Result.unwrap on an Err value" ∧
    PyGrandma.node egGState (999, 999) = .panicked "called Option.unwrap on a None value" ∧
    (PyGrandma.new.fit [] 1 none).1 = .panicked "called Result.unwrap on an Err value" :=
  ⟨rfl, rfl, rfl, rfl⟩

/-- Claim C2 (counterexample): on the example fitted tree whose only scale
index is 0 (no node exists at scale 999, and 999 lies outside
`bottom_scale() ..= top_scale()` = 0 ..= 0), `layer(999)` succeeds in both
bindings instead of failing with a NotFound condition. -/
theorem C2_layer_succeeds_on_absent_scale :
    CoverTree.layer egState 999 = .ok { tree := egReader, scale_index := 999 } ∧
    egReader.tree.nodes.all (fun x => decide (x.1.1 ≠ 999)) = true ∧
    CoverTree.top_scale egState = some 0 ∧
    CoverTree.bottom_scale egState = some 0 ∧
    PyGrandma.layer egGState 999 = .ok { tree := egGReader, scale_index := 999 } :=
  ⟨rfl, rfl, rfl, rfl, rfl⟩

/-- Claim C2 (amended): `layer(scale_index)` never fails on a fitted tree: for
every scale index, present or not, it returns a layer handle holding the
requested scale index, performing no existence check. -/
theorem C2_layer_total :
    (∀ (s : CoverTree) (r : CoverTreeReader) (si : Int), s.reader = some r →
       CoverTree.layer s si = .ok { tree := r, scale_index := si }) ∧
    (∀ (s : PyGrandma) (r : CoverTreeReader) (si : Int), s.reader = some r →
       PyGrandma.layer s si = .ok { tree := r, scale_index := si }) := by
  constructor
  · intro s r si h
    unfold CoverTree.layer
    rw [h]
  · intro s r si h
    unfold PyGrandma.layer
    rw [h]

/-- Witness for the amended C2 at a concrete fitted state and scale 999. -/
theorem C2_layer_total_w :
    egState.reader = some egReader ∧
    CoverTree.layer egState 999 = .ok { tree := egReader, scale_index := 999 } ∧
    egGState.reader = some egGReader ∧
    PyGrandma.layer egGState 999 = .ok { tree := egGReader, scale_index := 999 } :=
  ⟨rfl, C2_layer_total.1 egState egReader 999 rfl, rfl,
   C2_layer_total.2 egGState egGReader 999 rfl⟩

/-- Claim C3: on every fitted tree over N points, `knn(p, k)` succeeds and
returns the pairs `(distance, point_index)` sorted by non-decreasing
distance, of length exactly `min(k, N)`; in particular `knn(p, 0)` is empty.
(The core search is modelled from the spec as the brute-force top-k it is
specified to equal; distances are the squared-L2 surrogate, which preserves
the ordering.) -/
theorem C3_knn_contract :
    (∀ (s : CoverTree) (r : CoverTreeReader) (q : Point) (k : Nat), s.reader = some r →
       ∃ res, CoverTree.knn s q k = .ok res ∧
         res.length = min k r.point_cloud.points.length ∧
         List.Sorted (fun a b : ℚ × Nat => a.1 ≤ b.1) res ∧
         (k = 0 → res = [])) ∧
    (∀ (s : PyGrandma) (r : CoverTreeReader) (q : Point) (k : Nat), s.reader = some r →
       ∃ res, PyGrandma.knn s q k = .ok res ∧
         res.length = min k r.point_cloud.points.length ∧
         List.Sorted (fun a b : ℚ × Nat => a.1 ≤ b.1) res ∧
         (k = 0 → res = [])) := by
  constructor
  · intro s r q k h
    refine ⟨bruteKnn r.point_cloud q k, ?_, bruteKnn_length r.point_cloud q k,
      bruteKnn_sorted r.point_cloud q k, ?_⟩
    · unfold CoverTree.knn
      rw [h]
      rfl
    · intro hk
      subst hk
      simp [bruteKnn]
  · intro s r q k h
    refine ⟨bruteKnn r.point_cloud q k, ?_, bruteKnn_length r.point_cloud q k,
      bruteKnn_sorted r.point_cloud q k, ?_⟩
    · unfold PyGrandma.knn
      rw [h]
      rfl
    · intro hk
      subst hk
      simp [bruteKnn]

/-- Witness for C3 on the example fitted trees, query `[0]`, k = 1. -/
theorem C3_knn_contract_w :
    (egState.reader = some egReader ∧
      ∃ res, CoverTree.knn egState [0] 1 = .ok res ∧
        res.length = min 1 egReader.point_cloud.points.length ∧
        List.Sorted (fun a b : ℚ × Nat => a.1 ≤ b.1) res ∧
        (1 = 0 → res = [])) ∧
    (egGState.reader = some egGReader ∧
      ∃ res, PyGrandma.knn egGState [0] 1 = .ok res ∧
        res.length = min 1 egGReader.point_cloud.points.length ∧
        List.Sorted (fun a b : ℚ × Nat => a.1 ≤ b.1) res ∧
        (1 = 0 → res = [])) :=
  ⟨⟨rfl, C3_knn_contract.1 egState egReader [0] 1 rfl⟩,
   ⟨rfl, C3_knn_contract.2 egGState egGReader [0] 1 rfl⟩⟩

/-- Claim C4: `dry_insert(p)` on a fitted tree succeeds with the descent path
of `p` and does not mutate the binding state (so every tree observation made
through the same Reader snapshot — layer counts, node addresses — is the same
before and after the call), and an immediately repeated call on the resulting
state returns the identical result. -/
theorem C4_dry_insert_no_mutation :
    (∀ (s : CoverTree) (r : CoverTreeReader) (p : Point), s.reader = some r →
       CoverTree.dry_insert s p = (.ok (dryInsertPath r p), s) ∧
       CoverTree.dry_insert (CoverTree.dry_insert s p).2 p = CoverTree.dry_insert s p) ∧
    (∀ (s : PyGrandma) (r : CoverTreeReader) (p : Point), s.reader = some r →
       PyGrandma.dry_insert s p = (.ok (dryInsertPath r p), s) ∧
       PyGrandma.dry_insert (PyGrandma.dry_insert s p).2 p = PyGrandma.dry_insert s p) := by
  constructor
  · intro s r p h
    have h1 : CoverTree.dry_insert s p = (.ok (dryInsertPath r p), s) := by
      unfold CoverTree.dry_insert
      rw [h]
      rfl
    exact ⟨h1, by rw [h1]; exact h1⟩
  · intro s r p h
    have h1 : PyGrandma.dry_insert s p = (.ok (dryInsertPath r p), s) := by
      unfold PyGrandma.dry_insert
      rw [h]
      rfl
    exact ⟨h1, by rw [h1]; exact h1⟩

/-- Witness for C4 on the example fitted trees, point `[0]`. -/
theorem C4_dry_insert_no_mutation_w :
    (egState.reader = some egReader ∧
      CoverTree.dry_insert egState [0] = (.ok (dryInsertPath egReader [0]), egState) ∧
      CoverTree.dry_insert (CoverTree.dry_insert egState [0]).2 [0] =
        CoverTree.dry_insert egState [0]) ∧
    (egGState.reader = some egGReader ∧
      PyGrandma.dry_insert egGState [0] = (.ok (dryInsertPath egGReader [0]), egGState) ∧
      PyGrandma.dry_insert (PyGrandma.dry_insert egGState [0]).2 [0] =
        PyGrandma.dry_insert egGState [0]) :=
  ⟨⟨rfl, C4_dry_insert_no_mutation.1 egState egReader [0] rfl⟩,
   ⟨rfl, C4_dry_insert_no_mutation.2 egGState egGReader [0] rfl⟩⟩

/-- Claim C5: `build` fails with a configuration error whenever the scale
base is not > 1 or the cutoff is not ≥ 1, and with a data error whenever the
point cloud is empty (error contract modelled from the spec); and whenever
`build` fails inside `fit`, the whole call aborts (the unwrap panics) with the
binding's `reader` and `writer` fields left exactly as they were, so no
Reader to a partially built tree is ever produced. -/
theorem C5_build_errors_abort :
    (∀ (b : CoverTreeBuilder) (pc : PointCloud),
       b.scale_base ≤ 1 ∨ b.leaf_cutoff < 1 → b.build pc = .error .configError) ∧
    (∀ (b : CoverTreeBuilder) (pc : PointCloud),
       1 < b.scale_base → 1 ≤ b.leaf_cutoff → pc.points = [] →
       b.build pc = .error .dataError) ∧
    (∀ (s : CoverTree) (b : CoverTreeBuilder) (rows : List Point) (dim : Nat)
       (labels : Option (List Nat)) (e : BuildError),
       s.builder = some b → b.build (fitPointCloud rows dim labels) = .error e →
       (CoverTree.fit s (some (rows, dim)) labels).1 =
         .panicked "called Result.unwrap on an Err value" ∧
       (CoverTree.fit s (some (rows, dim)) labels).2.reader = s.reader ∧
       (CoverTree.fit s (some (rows, dim)) labels).2.writer = s.writer) ∧
    (∀ (s : PyGrandma) (b : CoverTreeBuilder) (rows : List Point) (dim : Nat)
       (labels : Option (List Nat)) (e : BuildError),
       s.builder = some b → b.build (fitPointCloud rows dim labels) = .error e →
       (PyGrandma.fit s rows dim labels).1 =
         .panicked "called Result.unwrap on an Err value" ∧
       (PyGrandma.fit s rows dim labels).2.reader = s.reader ∧
       (PyGrandma.fit s rows dim labels).2.writer = s.writer) := by
  refine ⟨?_, ?_, ?_, ?_⟩
  · intro b pc h
    unfold CoverTreeBuilder.build
    rcases h with h | h
    · rw [if_pos h]
    · by_cases h1 : b.scale_base ≤ 1
      · rw [if_pos h1]
      · rw [if_neg h1, if_pos h]
  · intro b pc h1 h2 h3
    unfold CoverTreeBuilder.build
    split_ifs with c1 c2 c3
    · exact absurd c1 (not_le.mpr h1)
    · exact absurd c2 (by omega)
    · rfl
    · simp [h3] at c3
    · simp [h3] at c3
  · intro s b rows dim labels e hb hbuild
    refine ⟨?_, ?_, ?_⟩ <;> simp [CoverTree.fit, fitAfterCloud, hb, hbuild]
  · intro s b rows dim labels e hb hbuild
    refine ⟨?_, ?_, ?_⟩ <;> simp [PyGrandma.fit, hb, hbuild]

/-- Witness for C5: the invalid scale base 1 yields a configuration error; a
fresh builder on an empty cloud yields a data error; and a `fit` on empty
host data panics, leaving `reader` and `writer` unset. -/
theorem C5_build_errors_abort_w :
    (CoverTreeBuilder.mk 1 1 (-10) true).scale_base ≤ 1 ∧
    (CoverTreeBuilder.mk 1 1 (-10) true).build (fitPointCloud [[0]] 1 none) =
      .error .configError ∧
    (1 < CoverTreeBuilder.new.scale_base ∧ 1 ≤ CoverTreeBuilder.new.leaf_cutoff ∧
      (fitPointCloud [] 1 none).points = [] ∧
      CoverTreeBuilder.new.build (fitPointCloud [] 1 none) = .error .dataError) ∧
    (CoverTree.new.builder = some CoverTreeBuilder.new ∧
      (CoverTree.fit CoverTree.new (some ([], 1)) none).1 =
        .panicked "called Result.unwrap on an Err value" ∧
      (CoverTree.fit CoverTree.new (some ([], 1)) none).2.reader = CoverTree.new.reader ∧
      (CoverTree.fit CoverTree.new (some ([], 1)) none).2.writer = CoverTree.new.writer) ∧
    (PyGrandma.new.builder = some CoverTreeBuilder.new ∧
      (PyGrandma.fit PyGrandma.new [] 1 none).1 =
        .panicked "called Result.unwrap on an Err value" ∧
      (PyGrandma.fit PyGrandma.new [] 1 none).2.reader = PyGrandma.new.reader ∧
      (PyGrandma.fit PyGrandma.new [] 1 none).2.writer = PyGrandma.new.writer) :=
  ⟨by decide,
   C5_build_errors_abort.1 (CoverTreeBuilder.mk 1 1 (-10) true)
     (fitPointCloud [[0]] 1 none) (Or.inl (by decide)),
   ⟨by decide, by decide, rfl,
    C5_build_errors_abort.2.1 CoverTreeBuilder.new (fitPointCloud [] 1 none)
      (by decide) (by decide) rfl⟩,
   ⟨rfl,
    C5_build_errors_abort.2.2.1 CoverTree.new CoverTreeBuilder.new [] 1 none
      .dataError rfl
      (C5_build_errors_abort.2.1 CoverTreeBuilder.new (fitPointCloud [] 1 none)
        (by decide) (by decide) rfl)⟩,
   ⟨rfl,
    C5_build_errors_abort.2.2.2 PyGrandma.new CoverTreeBuilder.new [] 1 none
      .dataError rfl
      (C5_build_errors_abort.2.1 CoverTreeBuilder.new (fitPointCloud [] 1 none)
        (by decide) (by decide) rfl)⟩⟩

/-- Claim C6: every successful `fit` stores a reader snapshot taken only
after `generate_summaries` and both plugin attachments (diagonal Gaussian,
then Dirichlet): the snapshot carries the base summaries and exactly those
two plugins in attachment order; moreover `add_plugin` after
`generate_summaries` can never hit its missing-summaries failure — it always
attaches. -/
theorem C6_fit_summaries_then_plugins :
    (∀ (s : CoverTree) (data : Option (List Point × Nat)) (labels : Option (List Nat))
       (s' : CoverTree), CoverTree.fit s data labels = (.ok (), s') →
       ∃ r, s'.reader = some r ∧ r.summaries.isSome = true ∧
         r.plugins = [PluginKind.diagGaussian, PluginKind.dirichlet]) ∧
    (∀ (w : CoverTreeWriter) (k : PluginKind),
       (w.generate_summaries.add_plugin k).plugins = w.plugins ++ [k] ∧
       (w.generate_summaries.add_plugin k).summaries.isSome = true) ∧
    (∀ (s : PyGrandma) (rows : List Point) (dim : Nat) (labels : Option (List Nat))
       (s' : PyGrandma), PyGrandma.fit s rows dim labels = (.ok (), s') →
       ∃ r, s'.reader = some r ∧ r.summaries.isSome = true ∧
         r.plugins = [PluginKind.diagGaussian, PluginKind.dirichlet]) := by
  refine ⟨?_, ?_, ?_⟩
  · intro s data labels s' h
    obtain ⟨r, h1, h2, h3, _, _⟩ := covertree_fit_ok h
    exact ⟨r, h1, h2, h3⟩
  · intro w k
    exact ⟨rfl, rfl⟩
  · intro s rows dim labels s' h
    obtain ⟨r, h1, h2, h3, _, _⟩ := pygrandma_fit_ok h
    exact ⟨r, h1, h2, h3⟩

/-- Witness for C6 on the example fits. -/
theorem C6_fit_summaries_then_plugins_w :
    (CoverTree.fit CoverTree.new (some (egData, 1)) none = (.ok (), egState) ∧
      ∃ r, egState.reader = some r ∧ r.summaries.isSome = true ∧
        r.plugins = [PluginKind.diagGaussian, PluginKind.dirichlet]) ∧
    (PyGrandma.fit PyGrandma.new egData 1 none = (.ok (), egGState) ∧
      ∃ r, egGState.reader = some r ∧ r.summaries.isSome = true ∧
        r.plugins = [PluginKind.diagGaussian, PluginKind.dirichlet]) :=
  ⟨⟨rfl, C6_fit_summaries_then_plugins.1 CoverTree.new (some (egData, 1)) none egState rfl⟩,
   ⟨rfl, C6_fit_summaries_then_plugins.2.2 PyGrandma.new egData 1 none egGState rfl⟩⟩

/-- Claim C7: the bindings enforce the single-use builder state machine with
runtime state flags (the `Option`-typed fields).  Once the builder has been
consumed (`builder = none`, which every successful `fit` establishes), every
configuration setter signals the misuse — it returns the "Set too late" panic
and changes nothing, never silently succeeding — and a second `fit` call
cannot consume the builder again: it signals a failure and leaves the stored
writer and reader untouched. -/
theorem C7_builder_single_use :
    (∀ (s : CoverTree), s.builder = none →
       (∀ x, CoverTree.set_scale_base s x = (.panicked "Set too late", s)) ∧
       (∀ x, CoverTree.set_leaf_cutoff s x = (.panicked "Set too late", s)) ∧
       (∀ x, CoverTree.set_min_res_index s x = (.panicked "Set too late", s)) ∧
       (∀ x, CoverTree.set_use_singletons s x = (.panicked "Set too late", s)) ∧
       (∀ data labels, ∃ m, (CoverTree.fit s data labels).1 = PyOutcome.panicked m ∧
          (CoverTree.fit s data labels).2.writer = s.writer ∧
          (CoverTree.fit s data labels).2.reader = s.reader)) ∧
    (∀ (s : CoverTree) (data : Option (List Point × Nat)) (labels : Option (List Nat))
       (s' : CoverTree), CoverTree.fit s data labels = (.ok (), s') → s'.builder = none) ∧
    (∀ (s : PyGrandma), s.builder = none →
       (∀ x, PyGrandma.set_scale_base s x = (.panicked "Set too late", s)) ∧
       (∀ x, PyGrandma.set_cutoff s x = (.panicked "Set too late", s)) ∧
       (∀ x, PyGrandma.set_resolution s x = (.panicked "Set too late", s)) ∧
       (∀ x, PyGrandma.set_use_singletons s x = (.panicked "Set too late", s)) ∧
       (∀ rows dim labels, ∃ m, (PyGrandma.fit s rows dim labels).1 = PyOutcome.panicked m ∧
          (PyGrandma.fit s rows dim labels).2.writer = s.writer ∧
          (PyGrandma.fit s rows dim labels).2.reader = s.reader)) ∧
    (∀ (s : PyGrandma) (rows : List Point) (dim : Nat) (labels : Option (List Nat))
       (s' : PyGrandma), PyGrandma.fit s rows dim labels = (.ok (), s') →
       s'.builder = none) := by
  refine ⟨?_, ?_, ?_, ?_⟩
  · intro s hb
    refine ⟨?_, ?_, ?_, ?_, ?_⟩
    · intro x; unfold CoverTree.set_scale_base; rw [hb]
    · intro x; unfold CoverTree.set_leaf_cutoff; rw [hb]
    · intro x; unfold CoverTree.set_min_res_index; rw [hb]
    · intro x; unfold CoverTree.set_use_singletons; rw [hb]
    · intro data labels
      cases data with
      | some d =>
        obtain ⟨rows, dim⟩ := d
        exact ⟨"called Option.unwrap on a None value",
          by simp [CoverTree.fit, fitAfterCloud, hb],
          by simp [CoverTree.fit, fitAfterCloud, hb],
          by simp [CoverTree.fit, fitAfterCloud, hb]⟩
      | none =>
        cases ht : s.temp_point_cloud with
        | some pc =>
          exact ⟨"called Option.unwrap on a None value",
            by simp [CoverTree.fit, fitAfterCloud, ht, hb],
            by simp [CoverTree.fit, fitAfterCloud, ht, hb],
            by simp [CoverTree.fit, fitAfterCloud, ht, hb]⟩
        | none =>
          exact ⟨"No known point_cloud",
            by simp [CoverTree.fit, ht], by simp [CoverTree.fit, ht],
            by simp [CoverTree.fit, ht]⟩
  · intro s data labels s' h
    obtain ⟨_, _, _, _, _, h5⟩ := covertree_fit_ok h
    exact h5
  · intro s hb
    refine ⟨?_, ?_, ?_, ?_, ?_⟩
    · intro x; unfold PyGrandma.set_scale_base; rw [hb]
    · intro x; unfold PyGrandma.set_cutoff; rw [hb]
    · intro x; unfold PyGrandma.set_resolution; rw [hb]
    · intro x; unfold PyGrandma.set_use_singletons; rw [hb]
    · intro rows dim labels
      exact ⟨"called Option.unwrap on a None value",
        by simp [PyGrandma.fit, hb], by simp [PyGrandma.fit, hb],
        by simp [PyGrandma.fit, hb]⟩
  · intro s rows dim labels s' h
    obtain ⟨_, _, _, _, _, h5⟩ := pygrandma_fit_ok h
    exact h5

/-- Witness for C7 on the example post-fit states (whose builders were
consumed by `fit`) and on the example successful fits. -/
theorem C7_builder_single_use_w :
    egState.builder = none ∧
    CoverTree.set_scale_base egState 3 = (.panicked "Set too late", egState) ∧
    (∃ m, (CoverTree.fit egState (some (egData, 1)) none).1 = PyOutcome.panicked m ∧
       (CoverTree.fit egState (some (egData, 1)) none).2.writer = egState.writer ∧
       (CoverTree.fit egState (some (egData, 1)) none).2.reader = egState.reader) ∧
    egGState.builder = none ∧
    PyGrandma.set_cutoff egGState 7 = (.panicked "Set too late", egGState) ∧
    (∃ m, (PyGrandma.fit egGState egData 1 none).1 = PyOutcome.panicked m ∧
       (PyGrandma.fit egGState egData 1 none).2.writer = egGState.writer ∧
       (PyGrandma.fit egGState egData 1 none).2.reader = egGState.reader) :=
  ⟨rfl,
   (C7_builder_single_use.1 egState rfl).1 3,
   (C7_builder_single_use.1 egState rfl).2.2.2.2 (some (egData, 1)) none,
   rfl,
   (C7_builder_single_use.2.2.1 egGState rfl).2.1 7,
   (C7_builder_single_use.2.2.1 egGState rfl).2.2.2.2 egData 1 none⟩

/-- Claim C8 (counterexample): `fit` performs no length check on a supplied
labels array.  With two points and a one-entry labels array, the point cloud
it hands to `build` has `labels.len() = 1 ≠ 2 = points.len()`, violating the
one-label-per-point invariant the claim asserts of every fit call. -/
theorem C8_labels_length_unchecked :
    (fitPointCloud [[0], [1]] 1 (some [5])).points.length = 2 ∧
    (fitPointCloud [[0], [1]] 1 (some [5])).labels.length = 1 ∧
    ¬ (fitPointCloud [[0], [1]] 1 (some [5])).labels.length =
        (fitPointCloud [[0], [1]] 1 (some [5])).points.length :=
  ⟨rfl, rfl, by decide⟩

/-- Claim C8 (amended): `fit` passes the point rows through unchanged; when
labels are absent every one of the N points receives the default label 0 (so
the label array then has exactly one entry per point), and when a labels
array is supplied it is used exactly as given, with no length validation — the
one-label-per-point invariant then holds only if the caller supplied exactly
one label per point. -/
theorem C8_fit_labels :
    (∀ (rows : List Point) (dim : Nat) (labels : Option (List Nat)),
       (fitPointCloud rows dim labels).points = rows) ∧
    (∀ (rows : List Point) (dim : Nat),
       (fitPointCloud rows dim none).labels = List.replicate rows.length 0 ∧
       (fitPointCloud rows dim none).labels.length = rows.length) ∧
    (∀ (rows : List Point) (dim : Nat) (l : List Nat),
       (fitPointCloud rows dim (some l)).labels = l) := by
  refine ⟨fun rows dim labels => rfl, fun rows dim => ⟨rfl, ?_⟩, fun rows dim l => rfl⟩
  simp [fitPointCloud, new_simple, fitLabels]

/-- Claim C9: `data_point` maps a failed core point lookup (out-of-range
index) to a successful absent result (`Ok(None)`), and an in-range index to a
dense array of exactly the point cloud's dimension. -/
theorem C9_data_point_absent_on_bad_index :
    (∀ (s : CoverTree) (r : CoverTreeReader), s.reader = some r →
       (∀ i, r.point_cloud.points.length ≤ i → CoverTree.data_point s i = .ok none) ∧
       (∀ i, i < r.point_cloud.points.length →
          ∃ a, CoverTree.data_point s i = .ok (some a) ∧
            a.length = r.point_cloud.dim)) ∧
    (∀ (s : PyGrandma) (r : CoverTreeReader), s.reader = some r →
       (∀ i, r.point_cloud.points.length ≤ i → PyGrandma.data_point s i = .ok none) ∧
       (∀ i, i < r.point_cloud.points.length →
          ∃ a, PyGrandma.data_point s i = .ok (some a) ∧
            a.length = r.point_cloud.dim)) := by
  constructor
  · intro s r h
    constructor
    · intro i hi
      unfold CoverTree.data_point
      rw [h]
      have : r.point_cloud.point i = .error "point index out of range" := by
        unfold PointCloud.point
        rw [List.getElem?_eq_none hi]
      simp [this]
    · intro i hi
      refine ⟨denseIter r.point_cloud.points[i] r.point_cloud.dim, ?_,
        denseIter_length _ _⟩
      unfold CoverTree.data_point
      rw [h]
      have : r.point_cloud.point i = .ok r.point_cloud.points[i] := by
        unfold PointCloud.point
        rw [List.getElem?_eq_getElem hi]
      simp [this]
  · intro s r h
    constructor
    · intro i hi
      unfold PyGrandma.data_point
      rw [h]
      have : r.point_cloud.point i = .error "point index out of range" := by
        unfold PointCloud.point
        rw [List.getElem?_eq_none hi]
      simp [this]
    · intro i hi
      refine ⟨denseIter r.point_cloud.points[i] r.point_cloud.dim, ?_,
        denseIter_length _ _⟩
      unfold PyGrandma.data_point
      rw [h]
      have : r.point_cloud.point i = .ok r.point_cloud.points[i] := by
        unfold PointCloud.point
        rw [List.getElem?_eq_getElem hi]
      simp [this]

/-- Witness for C9 on the example fitted trees (2 points): index 5 is out of
range and yields the absent value; index 0 yields a dimension-long array. -/
theorem C9_data_point_absent_on_bad_index_w :
    (egState.reader = some egReader ∧
      egReader.point_cloud.points.length ≤ 5 ∧
      CoverTree.data_point egState 5 = .ok none ∧
      (0 < egReader.point_cloud.points.length ∧
        ∃ a, CoverTree.data_point egState 0 = .ok (some a) ∧
          a.length = egReader.point_cloud.dim)) ∧
    (egGState.reader = some egGReader ∧
      egGReader.point_cloud.points.length ≤ 5 ∧
      PyGrandma.data_point egGState 5 = .ok none ∧
      (0 < egGReader.point_cloud.points.length ∧
        ∃ a, PyGrandma.data_point egGState 0 = .ok (some a) ∧
          a.length = egGReader.point_cloud.dim)) :=
  ⟨⟨rfl, by decide,
    (C9_data_point_absent_on_bad_index.1 egState egReader rfl).1 5 (by decide),
    ⟨by decide,
     (C9_data_point_absent_on_bad_index.1 egState egReader rfl).2 0 (by decide)⟩⟩,
   ⟨rfl, by decide,
    (C9_data_point_absent_on_bad_index.2 egGState egGReader rfl).1 5 (by decide),
    ⟨by decide,
     (C9_data_point_absent_on_bad_index.2 egGState egGReader rfl).2 0 (by decide)⟩⟩⟩

/-- Claim C10: before any successful fit (`reader` unset) `top_scale` and
`bottom_scale` return the absent value without failing — in particular on a
fresh binding object; once a reader is stored they return
`scale_range().end - 1` and `scale_range().start` respectively; and after any
successful fit (whose tree has at least one layer) both are present with
`bottom_scale() ≤ top_scale()`. -/
theorem C10_scale_accessors :
    (∀ (s : CoverTree), s.reader = none →
       CoverTree.top_scale s = none ∧ CoverTree.bottom_scale s = none) ∧
    (∀ (s : CoverTree) (r : CoverTreeReader), s.reader = some r →
       CoverTree.top_scale s = some (r.scale_range.2 - 1) ∧
       CoverTree.bottom_scale s = some r.scale_range.1) ∧
    (CoverTree.top_scale CoverTree.new = none ∧
      CoverTree.bottom_scale CoverTree.new = none) ∧
    (∀ (s : CoverTree) (data : Option (List Point × Nat)) (labels : Option (List Nat))
       (s' : CoverTree), CoverTree.fit s data labels = (.ok (), s') →
       ∃ lo hi, CoverTree.bottom_scale s' = some lo ∧
         CoverTree.top_scale s' = some hi ∧ lo ≤ hi) ∧
    (∀ (s : PyGrandma), s.reader = none →
       PyGrandma.top_scale s = none ∧ PyGrandma.bottom_scale s = none) ∧
    (∀ (s : PyGrandma) (r : CoverTreeReader), s.reader = some r →
       PyGrandma.top_scale s = some (r.scale_range.2 - 1) ∧
       PyGrandma.bottom_scale s = some r.scale_range.1) ∧
    (PyGrandma.top_scale PyGrandma.new = none ∧
      PyGrandma.bottom_scale PyGrandma.new = none) ∧
    (∀ (s : PyGrandma) (rows : List Point) (dim : Nat) (labels : Option (List Nat))
       (s' : PyGrandma), PyGrandma.fit s rows dim labels = (.ok (), s') →
       ∃ lo hi, PyGrandma.bottom_scale s' = some lo ∧
         PyGrandma.top_scale s' = some hi ∧ lo ≤ hi) := by
  refine ⟨?_, ?_, ⟨rfl, rfl⟩, ?_, ?_, ?_, ⟨rfl, rfl⟩, ?_⟩
  · intro s h
    unfold CoverTree.top_scale CoverTree.bottom_scale
    rw [h]
    exact ⟨rfl, rfl⟩
  · intro s r h
    unfold CoverTree.top_scale CoverTree.bottom_scale
    rw [h]
    exact ⟨rfl, rfl⟩
  · intro s data labels s' h
    obtain ⟨r, h1, _, _, h4, _⟩ := covertree_fit_ok h
    have h4t : r.tree.scale_range = (0, 1) := h4
    refine ⟨0, 0, ?_, ?_, le_refl 0⟩
    · unfold CoverTree.bottom_scale
      simp [h1, CoverTreeReader.scale_range, h4t]
    · unfold CoverTree.top_scale
      simp [h1, CoverTreeReader.scale_range, h4t]
  · intro s h
    unfold PyGrandma.top_scale PyGrandma.bottom_scale
    rw [h]
    exact ⟨rfl, rfl⟩
  · intro s r h
    unfold PyGrandma.top_scale PyGrandma.bottom_scale
    rw [h]
    exact ⟨rfl, rfl⟩
  · intro s rows dim labels s' h
    obtain ⟨r, h1, _, _, h4, _⟩ := pygrandma_fit_ok h
    have h4t : r.tree.scale_range = (0, 1) := h4
    refine ⟨0, 0, ?_, ?_, le_refl 0⟩
    · unfold PyGrandma.bottom_scale
      simp [h1, CoverTreeReader.scale_range, h4t]
    · unfold PyGrandma.top_scale
      simp [h1, CoverTreeReader.scale_range, h4t]

/-- Witness for C10 on a fresh binding object and the example fits. -/
theorem C10_scale_accessors_w :
    (CoverTree.new.reader = none ∧
      CoverTree.top_scale CoverTree.new = none ∧
      CoverTree.bottom_scale CoverTree.new = none) ∧
    (egState.reader = some egReader ∧
      CoverTree.top_scale egState = some (egReader.scale_range.2 - 1) ∧
      CoverTree.bottom_scale egState = some egReader.scale_range.1) ∧
    (CoverTree.fit CoverTree.new (some (egData, 1)) none = (.ok (), egState) ∧
      ∃ lo hi, CoverTree.bottom_scale egState = some lo ∧
        CoverTree.top_scale egState = some hi ∧ lo ≤ hi) ∧
    (egGState.reader = some egGReader ∧
      PyGrandma.top_scale egGState = some (egGReader.scale_range.2 - 1) ∧
      PyGrandma.bottom_scale egGState = some egGReader.scale_range.1) ∧
    (PyGrandma.fit PyGrandma.new egData 1 none = (.ok (), egGState) ∧
      ∃ lo hi, PyGrandma.bottom_scale egGState = some lo ∧
        PyGrandma.top_scale egGState = some hi ∧ lo ≤ hi) :=
  ⟨⟨rfl, C10_scale_accessors.1 CoverTree.new rfl⟩,
   ⟨rfl, C10_scale_accessors.2.1 egState egReader rfl⟩,
   ⟨rfl, C10_scale_accessors.2.2.2.1 CoverTree.new (some (egData, 1)) none egState rfl⟩,
   ⟨rfl, C10_scale_accessors.2.2.2.2.2.1 egGState egGReader rfl⟩,
   ⟨rfl, C10_scale_accessors.2.2.2.2.2.2.2 PyGrandma.new egData 1 none egGState rfl⟩⟩
